import Mathlib

set_option maxHeartbeats 1000000
set_option maxRecDepth 100000

/-
Shallow embedding of the Rosetta construction router and of the token-metadata
contract handler of the stacks-blockchain-api repository.

The endpoint handlers (preprocess, metadata, hash, parse, submit, payloads,
combine) are translated statement by statement from the router source.  All
functions the router imports from libraries or from repository modules that are
not part of the provided sources (helper predicates, the transaction codec, the
cryptographic primitives, the external account/broadcast services) are kept
abstract: they are fields of the `Ext` record of external collaborators, and
the theorems quantify over every possible `Ext`.  Fallible external calls are
`Option`-valued (`none` models a thrown exception); calls that the source wraps
in try/catch map `none` to the catch branch, calls outside any try/catch map
`none` to a crashed handler.
-/

namespace StacksApi

/-- Error catalog of the Rosetta construction router (`RosettaErrors`). -/
inductive RosettaError where
  | invalidCurveType
  | invalidPublicKey
  | invalidOperation
  | invalidCurrencySymbol
  | invalidCurrencyDecimals
  | invalidFee
  | invalidTransactionType
  | invalidSender
  | invalidRecipient
  | invalidAmount
  | invalidFees
  | emptyPublicKey
  | needOnePublicKey
  | noSignatures
  | needOnlyOneSignature
  | invalidSignature
  | signatureNotVerified
  | transactionNotSigned
  | invalidTransactionString
  | invalidParams
  deriving DecidableEq

/-- Currency amount attached to an operation. -/
structure OperationAmount where
  value : String := ""
  symbol : String := ""
  decimals : Nat := 0
  deriving DecidableEq

/-- One Rosetta operation (a debit or credit on an account). -/
structure RosettaOperation where
  type : String := ""
  address : String := ""
  amount : Option OperationAmount := none
  deriving DecidableEq

/-- Rosetta options object threaded between preprocess, metadata and payloads. -/
structure RosettaOptions where
  type : String := ""
  sender_address : Option String := none
  symbol : Option String := none
  decimals : Option Nat := none
  token_transfer_recipient_address : Option String := none
  amount : Option String := none
  fee : Option String := none
  max_fee : Option String := none
  gas_limit : Option Nat := none
  gas_price : Option Nat := none
  suggested_fee_multiplier : Option Nat := none
  deriving DecidableEq

/-- Rosetta public key descriptor. -/
structure RosettaPublicKey where
  hex_bytes : String := ""
  curve_type : String := ""
  deriving DecidableEq

/-- Signing payload carried inside a Rosetta signature. -/
structure SigningPayload where
  hex_bytes : String := ""
  deriving DecidableEq

/-- One Rosetta signature of a combine request. -/
structure RosettaSignature where
  hex_bytes : String := ""
  public_key : RosettaPublicKey := {}
  signing_payload : SigningPayload := {}
  deriving DecidableEq

/-- Recoverable message signature as used by the transaction library. -/
structure MessageSignature where
  data : String := ""
  deriving DecidableEq

/-- One authorization field of a multi-signature spending condition. -/
structure TransactionAuthField where
  contents : String := ""
  deriving DecidableEq

/-- Spending condition of a transaction: single-signature or multi-signature. -/
inductive SpendingCondition where
  | singleSig (signature : MessageSignature)
  | multiSig (fields : List TransactionAuthField)
  deriving DecidableEq

/-- Authorization of a deserialized transaction. -/
structure TransactionAuth where
  spendingCondition : Option SpendingCondition := none
  deriving DecidableEq

/-- A deserialized Stacks transaction, reduced to the parts the router inspects. -/
structure StacksTransaction where
  auth : TransactionAuth := {}
  deriving DecidableEq

/-- JavaScript truthiness of an optional string field: absent and "" are falsy. -/
def jsTruthyStr : Option String → Bool
  | none => false
  | some s => s != ""

/-- JavaScript truthiness of an optional numeric field: absent and 0 are falsy. -/
def jsTruthyNat : Option Nat → Bool
  | none => false
  | some n => n != 0

/-- Modelled from the spec: `has0xPrefix` lives in the repository helpers module,
which is not among the provided sources; per its name and its uses in the router
it tests for a leading "0x" on a hex string. -/
def has0xPrefix (s : String) : Bool := s.data.take 2 == ['0', 'x']

/-- Prefix normalization each transaction-consuming endpoint performs:
`if (!has0xPrefix(tx)) tx = '0x' + tx`. -/
def normalize0x (s : String) : String := if has0xPrefix s then s else "0x" ++ s

/-- Removal of the first occurrence of the two characters "0x" from a character
list, as performed by the JavaScript `replace('0x', '')`. -/
def removeFirst0x : List Char → List Char
  | [] => []
  | '0' :: 'x' :: rest => rest
  | c :: rest => c :: removeFirst0x rest

/-- JavaScript `s.replace('0x', '')`: removes the first occurrence of "0x". -/
def replaceFirst0x (s : String) : String := String.mk (removeFirst0x s.data)

/-- Modelled from the spec: `RosettaConstants.symbol`, the chain's fixed native
currency symbol, is defined in the rosetta-constants module which is not among
the provided sources. -/
def rosettaSymbol : String := "STX"

/-- Modelled from the spec: `RosettaConstants.decimals`, the fixed decimal
precision of the native currency, from the same missing module. -/
def rosettaDecimals : Nat := 6

/-- Modelled from the spec: `emptyMessageSignature` of the transactions library
(an external dependency) — the all-zero signature sentinel, a recoverable
signature of 65 zero bytes rendered as 130 zero characters. -/
def emptyMessageSignature : MessageSignature := ⟨String.mk (List.replicate 130 '0')⟩

/-- External collaborators of the router: repository helpers that are not part
of the provided sources, the transaction codec and cryptographic primitives of
the transactions library, and the remote account/broadcast services.  The
theorems quantify over every `Ext`, so nothing is assumed about these. -/
structure Ext where
  isValidC32Address : String → Bool
  publicKeyToBitcoinAddress : String → String → Option String
  bitcoinAddressToSTXAddress : String → Option String
  isSymbolSupported : List RosettaOperation → Bool
  isDecimalsSupported : List RosettaOperation → Bool
  getOptionsFromOperations : List RosettaOperation → Option RosettaOptions
  getAccountNonce : String → Nat
  getCurrentBlockHash : Option String
  hexToBuffer : String → Option (List Nat)
  deserializeTransaction : List Nat → Option StacksTransaction
  txid : StacksTransaction → String
  rawTxToStacksTransaction : String → Option StacksTransaction
  isSignedTransaction : StacksTransaction → Bool
  getOperationsOfRaw : String → Option (List RosettaOperation)
  getSigners : StacksTransaction → List String
  sendTransaction : List Nat → Option String
  makeUnsignedSTXTokenTransfer : String → String → String → String → Nat → String
  makeSigHashPreSign : String → String → Nat → String
  makePresignHash : StacksTransaction → Option String
  createMessageSignature : String → Option MessageSignature
  verifySignature : String → String → MessageSignature → Bool
  serializeTransaction : StacksTransaction → String

/-- Optional metadata overrides of a preprocess request. -/
structure PreprocessMetadata where
  gas_limit : Option Nat := none
  gas_price : Option Nat := none
  suggested_fee_multiplier : Option Nat := none
  deriving DecidableEq

/-- First element of the `max_fee` array of a preprocess request. -/
structure MaxFeeAmount where
  value : String := ""
  currency_symbol : String := ""
  currency_decimals : Nat := 0
  deriving DecidableEq

/-- Body of a preprocess request.  `max_fee` models the first element of the
supplied `max_fee` array (the handler only reads `max_fee[0]`), and
`suggested_fee_multiplier` is the request's top-level field of that name. -/
structure PreprocessRequest where
  operations : List RosettaOperation := []
  metadata : Option PreprocessMetadata := none
  suggested_fee_multiplier : Option Nat := none
  max_fee : Option MaxFeeAmount := none
  deriving DecidableEq

/-- Successful preprocess response: the options object and the address of the
single required public key. -/
structure PreprocessResponse where
  options : RosettaOptions
  required_public_keys_address : Option String
  deriving DecidableEq

/-- The `/preprocess` endpoint handler. -/
def preprocessHandler (ext : Ext) (req : PreprocessRequest) :
    Except RosettaError PreprocessResponse :=
  if req.operations.length ≠ 3 then .error .invalidOperation
  else if ext.isSymbolSupported req.operations = false then .error .invalidCurrencySymbol
  else if ext.isDecimalsSupported req.operations = false then .error .invalidCurrencyDecimals
  else
    match ext.getOptionsFromOperations req.operations with
    | none => .error .invalidOperation
    | some options0 =>
      let options1 :=
        match req.metadata with
        | none => options0
        | some md =>
          let o1 := if jsTruthyNat md.gas_limit then { options0 with gas_limit := md.gas_limit } else options0
          let o2 := if jsTruthyNat md.gas_price then { o1 with gas_price := md.gas_price } else o1
          -- the source reads the TOP-LEVEL req.body.suggested_fee_multiplier here,
          -- not req.body.metadata.suggested_fee_multiplier
          if jsTruthyNat req.suggested_fee_multiplier then
            { o2 with suggested_fee_multiplier := req.suggested_fee_multiplier }
          else o2
      match req.max_fee with
      | none => .ok ⟨options1, options1.sender_address⟩
      | some max_fee =>
        if max_fee.currency_symbol = rosettaSymbol ∧ max_fee.currency_decimals = rosettaDecimals then
          let options2 := { options1 with max_fee := some max_fee.value }
          .ok ⟨options2, options2.sender_address⟩
        else .error .invalidFee

/-- Body of a metadata request. -/
structure MetadataRequest where
  options : RosettaOptions := {}
  public_keys : List RosettaPublicKey := []
  network : String := ""
  deriving DecidableEq

/-- Successful metadata response: the original options merged with the fetched
account nonce and the most recent block hash. -/
structure MetadataResponse where
  options : RosettaOptions
  account_sequence : Nat
  recent_block_hash : Option String
  deriving DecidableEq

/-- External network calls a handler can make. -/
inductive NetEvent where
  | getAccount (address : String)
  | getCurrentBlock
  deriving DecidableEq

/-- Address derivation the metadata handler applies to a supplied public key:
strip an optional "0x" prefix, derive the legacy bitcoin address, map it to a
STX address.  `none` covers both an `undefined` result and a thrown exception,
each of which the handler maps to `InvalidPublicKey`. -/
def deriveStxAddress (ext : Ext) (hexBytes network : String) : Option String :=
  let k := if has0xPrefix hexBytes then replaceFirst0x hexBytes else hexBytes
  match ext.publicKeyToBitcoinAddress k network with
  | none => none
  | some btcAddress => ext.bitcoinAddressToSTXAddress btcAddress

/-- The `/metadata` endpoint handler.  The second component lists the external
network calls made during the request. -/
def metadataHandler (ext : Ext) (req : MetadataRequest) :
    Except RosettaError MetadataResponse × List NetEvent :=
  let options := req.options
  if options.type ≠ "token_transfer" then (.error .invalidTransactionType, [])
  else if (match options.sender_address with
           | some s => !(ext.isValidC32Address s)
           | none => false) then (.error .invalidSender, [])
  else if options.symbol ≠ some rosettaSymbol then (.error .invalidCurrencySymbol, [])
  else if options.decimals ≠ some rosettaDecimals then (.error .invalidCurrencyDecimals, [])
  else
    match options.token_transfer_recipient_address with
    | none => (.error .invalidRecipient, [])
    | some recipientAddress =>
      if ext.isValidC32Address recipientAddress = false then (.error .invalidRecipient, [])
      else
        let proceed : Except RosettaError MetadataResponse × List NetEvent :=
          let nonce := ext.getAccountNonce recipientAddress
          let recentBlockHash := ext.getCurrentBlockHash
          (.ok ⟨options, nonce, recentBlockHash⟩,
           [NetEvent.getAccount recipientAddress, NetEvent.getCurrentBlock])
        match req.public_keys with
        | [] => proceed
        | publicKey :: _ =>
          match deriveStxAddress ext publicKey.hex_bytes req.network with
          | none => (.error .invalidPublicKey, [])
          | some stxAddress =>
            if some stxAddress ≠ options.sender_address then (.error .invalidPublicKey, [])
            else proceed

/-- The `/hash` endpoint handler.  The outer `none` models the unhandled
exception thrown when `deserializeTransaction` fails (the source does not wrap
that call in a try/catch). -/
def hashHandler (ext : Ext) (signedTransaction : String) :
    Option (Except RosettaError String) :=
  let tx := normalize0x signedTransaction
  match ext.hexToBuffer tx with
  | none => some (.error .invalidTransactionString)
  | some buffer =>
    match ext.deserializeTransaction buffer with
    | none => none
    | some transaction =>
      let hash := ext.txid transaction
      match transaction.auth.spendingCondition with
      | none => some (.error .transactionNotSigned)
      | some (.singleSig signature) =>
        if signature.data = "" ∨ signature.data = emptyMessageSignature.data then
          some (.error .transactionNotSigned)
        else some (.ok ("0x" ++ hash))
      | some (.multiSig fields) =>
        if fields.length = 0 then some (.error .transactionNotSigned)
        else some (.ok ("0x" ++ hash))

/-- Body of a parse request. -/
structure ParseRequest where
  transaction : String := ""
  signed : Bool := false
  deriving DecidableEq

/-- Outcome of the `/parse` handler: a crash (unhandled deserialization
exception), a swallowed exception with no response at all (the catch branch
only logs), an error response, or a success response. -/
inductive ParseOutcome where
  | crash
  | noResponse
  | err (e : RosettaError)
  | response (operations : List RosettaOperation) (signers : Option (List String))
  deriving DecidableEq

/-- The `/parse` endpoint handler. -/
def parseHandler (ext : Ext) (req : ParseRequest) : ParseOutcome :=
  let inputTx := normalize0x req.transaction
  match ext.rawTxToStacksTransaction inputTx with
  | none => .crash
  | some transaction =>
    let checkSigned := ext.isSignedTransaction transaction
    if req.signed ≠ checkSigned then .err .invalidParams
    else
      match ext.getOperationsOfRaw inputTx with
      | none => .noResponse
      | some operations =>
        if req.signed then .response operations (some (ext.getSigners transaction))
        else .response operations none

/-- The `/submit` endpoint handler. -/
def submitHandler (ext : Ext) (signedTransaction : String) : Except RosettaError String :=
  let transaction := normalize0x signedTransaction
  match ext.hexToBuffer transaction with
  | none => .error .invalidTransactionString
  | some buffer =>
    match ext.sendTransaction buffer with
    | none => .error .invalidTransactionString
    | some txId => .ok txId

/-- Body of a payloads request.  `public_keys = none` models an absent field. -/
structure PayloadsRequest where
  operations : List RosettaOperation := []
  public_keys : Option (List RosettaPublicKey) := none
  deriving DecidableEq

/-- Successful payloads response. -/
structure PayloadsResponse where
  unsigned_transaction : String
  payload_address : String
  payload_hex_bytes : String
  signature_type : String
  deriving DecidableEq

/-- External work the payloads handler performs. -/
inductive PayloadsEvent where
  | getAccount (address : String)
  | makeUnsignedTransfer
  deriving DecidableEq

/-- The `/payloads` endpoint handler.  The second component records the
account lookup and the construction of the unsigned transaction, in order. -/
def payloadsHandler (ext : Ext) (req : PayloadsRequest) :
    Except RosettaError PayloadsResponse × List PayloadsEvent :=
  match ext.getOptionsFromOperations req.operations with
  | none => (.error .invalidOperation, [])
  | some options =>
    if jsTruthyStr options.amount = false then (.error .invalidAmount, [])
    else if jsTruthyStr options.fee = false then (.error .invalidFees, [])
    else
      match req.public_keys with
      | none => (.error .emptyPublicKey, [])
      | some publicKeys =>
        if jsTruthyStr options.token_transfer_recipient_address = false then
          (.error .invalidRecipient, [])
        else if jsTruthyStr options.sender_address = false then (.error .invalidSender, [])
        else
          let senderAddress := options.sender_address.getD ""
          let nonce := ext.getAccountNonce senderAddress
          -- publicKeys.length !== 1 rejects everything but a singleton list
          match publicKeys with
          | [publicKey] =>
            if publicKey.curve_type ≠ "secp256k1" then
              (.error .invalidCurveType, [.getAccount senderAddress])
            else
              let recipient := options.token_transfer_recipient_address.getD ""
              let amount := options.amount.getD ""
              let fee := options.fee.getD ""
              let unsignedTransaction :=
                ext.makeUnsignedSTXTokenTransfer recipient amount fee publicKey.hex_bytes nonce
              let prehash := ext.makeSigHashPreSign unsignedTransaction fee nonce
              (.ok ⟨"0x" ++ unsignedTransaction, senderAddress, prehash, "ecdsa_recovery"⟩,
               [.getAccount senderAddress, .makeUnsignedTransfer])
          | _ => (.error .needOnePublicKey, [.getAccount senderAddress])

/-- Body of a combine request. -/
structure CombineRequest where
  unsigned_transaction : String := ""
  signatures : List RosettaSignature := []
  deriving DecidableEq

/-- One response emission of the combine handler.  The source is missing two
`return` statements, so a single request can emit more than one response; the
handler therefore yields the ordered list of emissions. -/
inductive CombineEmit where
  | err (e : RosettaError)
  | signedTx (hex : String)
  deriving DecidableEq

/-- JavaScript `s.slice(n)` for an ASCII hex string: the characters from index
`n` onward. -/
def jsSlice (s : String) (n : Nat) : String := String.mk (s.data.drop n)

/-- JavaScript `s.slice(0, -2)` for an ASCII hex string: the string without its
last two characters. -/
def jsDropLast2 (s : String) : String := String.mk s.data.dropLast.dropLast

/-- JavaScript `s.startsWith('01')`. -/
def jsStartsWith01 (s : String) : Bool := s.data.take 2 == ['0', '1']

/-- Signature normalization of the combine handler: a trailing recovery byte is
rotated to the front on a literal "01" prefix/suffix check. -/
def normalizeSignatureHex (s : String) : String :=
  if jsStartsWith01 s = false ∧ jsSlice s 128 = "01" then jsSlice s 128 ++ jsDropLast2 s
  else s

/-- The `/combine` endpoint handler, returning every response it emits in
order.  The checks at `signatures.length !== 1` and at signature verification
set an error response but do not return, exactly as in the source. -/
def combineHandler (ext : Ext) (req : CombineRequest) : List CombineEmit :=
  let unsignedTx := normalize0x req.unsigned_transaction
  match req.signatures with
  | [] => [.err .noSignatures]
  | sig0 :: restSigs =>
    match (ext.hexToBuffer unsignedTx).bind ext.deserializeTransaction with
    | none => [.err .invalidTransactionString]
    | some transaction =>
      let lengthEmit : List CombineEmit :=
        if restSigs.length ≠ 0 then [.err .needOnlyOneSignature] else []
      if sig0.public_key.curve_type ≠ "secp256k1" then lengthEmit ++ [.err .invalidCurveType]
      else
        match ext.makePresignHash transaction with
        | none => lengthEmit ++ [.err .invalidTransactionString]
        | some _preSignHash =>
          match ext.createMessageSignature (normalizeSignatureHex sig0.hex_bytes) with
          | none => lengthEmit ++ [.err .invalidSignature]
          | some newSignature =>
            -- the source tests the PUBLIC KEY for a "0x" prefix but strips it
            -- from the SIGNING PAYLOAD
            let payloadHex :=
              if has0xPrefix sig0.public_key.hex_bytes then
                replaceFirst0x sig0.signing_payload.hex_bytes
              else sig0.signing_payload.hex_bytes
            let verifyEmit : List CombineEmit :=
              if ext.verifySignature payloadHex sig0.public_key.hex_bytes newSignature then []
              else [.err .signatureNotVerified]
            let transaction2 :=
              match transaction.auth.spendingCondition with
              | some (.singleSig _) =>
                { transaction with auth := { spendingCondition := some (.singleSig newSignature) } }
              | _ => transaction
            let serializedTx := ext.serializeTransaction transaction2
            lengthEmit ++ verifyEmit ++ [.signedTx ("0x" ++ serializedTx)]

/-- One argument of a Clarity ABI function; the type is kept as its rendered
form, which is all the compliance check could compare. -/
structure ClarityAbiArg where
  name : String := ""
  type : String := ""
  deriving DecidableEq

/-- One function of a Clarity ABI.  The `outputs` field of the source is
omitted: neither `isCompliant` nor `findFunction` inspects it. -/
structure ClarityAbiFunction where
  access : String := ""
  name : String := ""
  args : List ClarityAbiArg := []
  deriving DecidableEq

/-- A Clarity contract ABI, reduced to the parts the token handler inspects;
the token lists are kept as element counts. -/
structure ClarityAbi where
  functions : List ClarityAbiFunction := []
  fungible_tokens : Nat := 0
  non_fungible_tokens : Nat := 0
  deriving DecidableEq

/-- The SIP-010 fungible-token standard functions required by the handler. -/
def FT_FUNCTIONS : List ClarityAbiFunction :=
  [ ⟨"public", "transfer",
      [⟨"amount", "uint128"⟩, ⟨"sender", "principal"⟩, ⟨"recipient", "principal"⟩,
       ⟨"memo", "(optional (buff 34))"⟩]⟩,
    ⟨"read_only", "get-name", []⟩,
    ⟨"read_only", "get-symbol", []⟩,
    ⟨"read_only", "get-decimals", []⟩,
    ⟨"read_only", "get-balance-of", [⟨"address", "principal"⟩]⟩,
    ⟨"read_only", "get-total-supply", []⟩,
    ⟨"read_only", "get-token-uri", []⟩ ]

/-- Search for a standard function in the contract function list.  The source
compares the name and the argument count; the per-argument comparison runs in a
`forEach` whose callback results are discarded, so its outcome never reaches
the returned value — the dead computation is kept here as an unused binding. -/
def findFunction (abiFun : ClarityAbiFunction) (functionList : List ClarityAbiFunction) : Bool :=
  let found := functionList.find? fun standardFunction =>
    if standardFunction.name = abiFun.name ∧ standardFunction.args.length = abiFun.args.length then
      let _argMismatches :=
        (standardFunction.args.zip abiFun.args).map fun p => decide (p.1 ≠ p.2)
      true
    else false
  found.isSome

/-- SIP-009/SIP-010 compliance check of a contract ABI. -/
def isCompliant (contractAbi : ClarityAbi) (standardFunction : List ClarityAbiFunction) : Bool :=
  standardFunction.all fun abiFun => findFunction abiFun contractAbi.functions

/-- A `transfer` function with the standard name and argument count but with
every argument type changed. -/
def mismatchedTransfer : ClarityAbiFunction :=
  ⟨"public", "transfer",
    [⟨"amount", "bool"⟩, ⟨"sender", "bool"⟩, ⟨"recipient", "bool"⟩, ⟨"memo", "bool"⟩]⟩

/-- A contract ABI whose `transfer` argument types all differ from the SIP-010
standard while names and argument counts agree. -/
def mismatchedFtContract : ClarityAbi :=
  ⟨mismatchedTransfer :: FT_FUNCTIONS.drop 1, 1, 0⟩

/-- Options returned by the test oracle for operation translation. -/
def optsTest : RosettaOptions :=
  { type := "token_transfer"
    sender_address := some "S"
    symbol := some rosettaSymbol
    decimals := some rosettaDecimals
    token_transfer_recipient_address := some "R"
    amount := some "100"
    fee := some "180" }

/-- Fully concrete instance of the external collaborators, used to evaluate the
handlers at concrete inputs. -/
def extTest : Ext where
  isValidC32Address := fun _ => true
  publicKeyToBitcoinAddress := fun k _ => some ("btc" ++ k)
  bitcoinAddressToSTXAddress := fun b => some ("stx" ++ b)
  isSymbolSupported := fun _ => true
  isDecimalsSupported := fun _ => true
  getOptionsFromOperations := fun _ => some optsTest
  getAccountNonce := fun _ => 7
  getCurrentBlockHash := some "beef"
  hexToBuffer := fun _ => some []
  deserializeTransaction := fun _ => some ⟨⟨some (.singleSig ⟨"ab"⟩)⟩⟩
  txid := fun _ => "cafe"
  rawTxToStacksTransaction := fun _ => some ⟨⟨none⟩⟩
  isSignedTransaction := fun _ => false
  getOperationsOfRaw := fun _ => some []
  getSigners := fun _ => []
  sendTransaction := fun _ => some "dead"
  makeUnsignedSTXTokenTransfer := fun _ _ _ _ _ => "feed"
  makeSigHashPreSign := fun _ _ _ => "1234"
  makePresignHash := fun _ => some "5678"
  createMessageSignature := fun s => some ⟨s⟩
  verifySignature := fun p _ _ => p == "dd"
  serializeTransaction := fun _ => "fade"

/-- Combine request whose single signature fails cryptographic verification
under `extTest` (its signing payload is "ee", the verifier accepts "dd"). -/
def reqVerifyFail : CombineRequest :=
  { unsigned_transaction := "ca"
    signatures := [{ hex_bytes := "ab"
                     public_key := { hex_bytes := "02aa", curve_type := "secp256k1" }
                     signing_payload := { hex_bytes := "ee" } }] }

/-- Combine request carrying two signatures, each of which would verify. -/
def reqTwoSigs : CombineRequest :=
  { unsigned_transaction := "ca"
    signatures := [{ hex_bytes := "ab"
                     public_key := { hex_bytes := "02aa", curve_type := "secp256k1" }
                     signing_payload := { hex_bytes := "dd" } },
                   { hex_bytes := "ab"
                     public_key := { hex_bytes := "02aa", curve_type := "secp256k1" }
                     signing_payload := { hex_bytes := "dd" } }] }

/-- Preprocess request supplying `suggested_fee_multiplier` inside `metadata`
but not at the top level of the request body. -/
def reqC8 : PreprocessRequest :=
  { operations := [{}, {}, {}]
    metadata := some { suggested_fee_multiplier := some 2 } }

/-- Metadata request whose public key derives (under `extTest`) exactly the
declared sender address. -/
def reqC7 : MetadataRequest :=
  { options := { type := "token_transfer"
                 sender_address := some "stxbtc02aa"
                 symbol := some rosettaSymbol
                 decimals := some rosettaDecimals
                 token_transfer_recipient_address := some "R" }
    public_keys := [{ hex_bytes := "02aa", curve_type := "secp256k1" }]
    network := "testnet" }

/-- Metadata request with an unsupported transaction type. -/
def reqBadType : MetadataRequest :=
  { options := { type := "coinbase" } }

/-- Payloads request supplying an empty (but present) public key list. -/
def reqC4 : PayloadsRequest :=
  { operations := [{}, {}, {}]
    public_keys := some [] }

/-- Signature sample of length 130 ending in the literal "01". -/
def sigSample : String := String.mk (List.replicate 128 'a' ++ ['0', '1'])

/-- Metadata overrides supplying every numeric field. -/
def mdW8 : PreprocessMetadata := { gas_limit := some 3, gas_price := some 4 }

/-- Preprocess request supplying metadata overrides and a top-level
`suggested_fee_multiplier`. -/
def reqW8 : PreprocessRequest :=
  { operations := [{}, {}, {}]
    metadata := some mdW8
    suggested_fee_multiplier := some 9 }

/-- Response the preprocess handler computes for `reqW8` under `extTest`. -/
def respW8 : PreprocessResponse :=
  ⟨{ optsTest with gas_limit := some 3, gas_price := some 4,
                   suggested_fee_multiplier := some 9 }, some "S"⟩

/-! Helper lemmas shared by several claim proofs. -/

/-- Character data of a string with a prepended "0x". -/
theorem data_append_0x (s : String) : ("0x" ++ s).data = '0' :: 'x' :: s.data := rfl

/-- Prepending "0x" yields a string with a "0x" prefix. -/
theorem has0xPrefix_append (s : String) : has0xPrefix ("0x" ++ s) = true := by
  simp [has0xPrefix, data_append_0x]

/-- Normalization prepends "0x" exactly when the prefix is absent. -/
theorem normalize0x_eq (s : String) (h : has0xPrefix s = false) :
    normalize0x s = "0x" ++ s := by
  simp [normalize0x, h]

/-- Normalization leaves an already prefixed string unchanged. -/
theorem normalize0x_append (s : String) : normalize0x ("0x" ++ s) = "0x" ++ s := by
  simp [normalize0x, has0xPrefix_append]

/-- The function search of the compliance check reduces to a name and
argument-count comparison: the per-argument type comparison is discarded. -/
theorem findFunction_eq_any (f : ClarityAbiFunction) (l : List ClarityAbiFunction) :
    findFunction f l =
      l.any fun g => decide (g.name = f.name ∧ g.args.length = f.args.length) := by
  induction l with
  | nil => rfl
  | cons g gs ih =>
    by_cases h : g.name = f.name ∧ g.args.length = f.args.length <;>
      [simp_all [findFunction, List.find?];
       (simp_all [findFunction, List.find?];
        cases hn : decide (g.name = f.name) <;>
        cases ha : decide (g.args.length = f.args.length) <;>
        simp_all)]

/-- Claim C2: for every preprocess request, the validation checks run in the
fixed order operation count (`InvalidOperation` unless exactly 3), currency
symbol (`InvalidCurrencySymbol`), currency decimals
(`InvalidCurrencyDecimals`), then the supplied max_fee currency (`InvalidFee`);
the first failing check determines the single error returned and no later
check runs. -/
theorem preprocess_check_order (ext : Ext) (req : PreprocessRequest) :
    (req.operations.length ≠ 3 → preprocessHandler ext req = .error .invalidOperation)
    ∧ (req.operations.length = 3 → ext.isSymbolSupported req.operations = false →
        preprocessHandler ext req = .error .invalidCurrencySymbol)
    ∧ (req.operations.length = 3 → ext.isSymbolSupported req.operations = true →
        ext.isDecimalsSupported req.operations = false →
        preprocessHandler ext req = .error .invalidCurrencyDecimals)
    ∧ (∀ options0 max_fee, req.operations.length = 3 →
        ext.isSymbolSupported req.operations = true →
        ext.isDecimalsSupported req.operations = true →
        ext.getOptionsFromOperations req.operations = some options0 →
        req.max_fee = some max_fee →
        ¬(max_fee.currency_symbol = rosettaSymbol ∧ max_fee.currency_decimals = rosettaDecimals) →
        preprocessHandler ext req = .error .invalidFee) := by
  refine ⟨?_, ?_, ?_, ?_⟩ <;> intros <;> simp_all [preprocessHandler]

/-- Witness for C2 at a concrete input: the empty operation list is rejected
with `InvalidOperation`. -/
theorem preprocess_check_order_witness :
    preprocessHandler extTest {} = .error .invalidOperation :=
  (preprocess_check_order extTest {}).1 (by decide)

/-- Claim C8 counterexample: a preprocess request that supplies
`metadata.suggested_fee_multiplier` (and no top-level field of that name)
passes validation, yet the returned options do not carry the supplied value —
the handler reads the top-level request field instead. -/
theorem preprocess_sfm_counterexample :
    reqC8.metadata =
      some { gas_limit := none, gas_price := none, suggested_fee_multiplier := some 2 }
    ∧ preprocessHandler extTest reqC8 = .ok ⟨optsTest, some "S"⟩
    ∧ optsTest.suggested_fee_multiplier = none :=
  ⟨rfl, rfl, rfl⟩

/-- Claim C8 (amended): for every preprocess request that passes all validation
and whose metadata object is present, the returned options carry a supplied
nonzero metadata gas_limit and gas_price, while options.suggested_fee_multiplier
is taken from the request's TOP-LEVEL suggested_fee_multiplier field (when
nonzero), not from metadata.suggested_fee_multiplier, which is ignored. -/
theorem preprocess_metadata_overrides (ext : Ext) (req : PreprocessRequest)
    (options0 : RosettaOptions) (md : PreprocessMetadata)
    (hlen : req.operations.length = 3)
    (hsym : ext.isSymbolSupported req.operations = true)
    (hdec : ext.isDecimalsSupported req.operations = true)
    (hopt : ext.getOptionsFromOperations req.operations = some options0)
    (hmd : req.metadata = some md) :
    ∀ r, preprocessHandler ext req = .ok r →
      (jsTruthyNat md.gas_limit = true → r.options.gas_limit = md.gas_limit)
      ∧ (jsTruthyNat md.gas_price = true → r.options.gas_price = md.gas_price)
      ∧ (jsTruthyNat req.suggested_fee_multiplier = true →
          r.options.suggested_fee_multiplier = req.suggested_fee_multiplier)
      ∧ (req.suggested_fee_multiplier = none →
          r.options.suggested_fee_multiplier = options0.suggested_fee_multiplier) := by
  intro r h
  simp only [preprocessHandler, hlen, hsym, hdec, hopt, hmd] at h
  simp only [ne_eq, not_true_eq_false, if_false, Bool.false_eq_true, ite_false] at h
  split_ifs at h <;>
    cases hmf : req.max_fee <;> simp only [hmf] at h <;>
    (try split_ifs at h) <;>
    injection h with h2 <;> subst h2 <;>
    refine ⟨?_, ?_, ?_, ?_⟩ <;> intro htr <;> simp_all [jsTruthyNat]

/-- Witness for C8's amended theorem at a concrete input. -/
theorem preprocess_metadata_overrides_witness :
    respW8.options.gas_limit = some 3 ∧ respW8.options.gas_price = some 4 ∧
    respW8.options.suggested_fee_multiplier = some 9 :=
  ⟨(preprocess_metadata_overrides extTest reqW8 optsTest mdW8 rfl rfl rfl rfl rfl respW8
      (by rfl)).1 (by decide),
   (preprocess_metadata_overrides extTest reqW8 optsTest mdW8 rfl rfl rfl rfl rfl respW8
      (by rfl)).2.1 (by decide),
   (preprocess_metadata_overrides extTest reqW8 optsTest mdW8 rfl rfl rfl rfl rfl respW8
      (by rfl)).2.2.1 (by decide)⟩

/-- Claim C5: in combine, signature normalization rotates a trailing recovery
byte to the leading position by a literal "01" check: a signature hex string
that does not start with "01" and whose characters from index 128 onward equal
"01" normalizes to that trailing "01" followed by the original string without
its last two characters; every other signature string is passed to signature
construction unchanged. -/
theorem combine_signature_rotation (s : String) :
    (jsStartsWith01 s = false → jsSlice s 128 = "01" →
       normalizeSignatureHex s = "01" ++ jsDropLast2 s)
    ∧ (jsStartsWith01 s = true ∨ jsSlice s 128 ≠ "01" → normalizeSignatureHex s = s) := by
  constructor
  · intro h1 h2
    simp [normalizeSignatureHex, h1, h2]
  · intro h
    rcases h with h | h
    · simp [normalizeSignatureHex, h]
    · simp [normalizeSignatureHex, h]

/-- Witness for C5 at concrete inputs: a 130-character signature ending in "01"
is rotated, and a short signature is left unchanged. -/
theorem combine_signature_rotation_witness :
    normalizeSignatureHex sigSample = "01" ++ jsDropLast2 sigSample ∧
    normalizeSignatureHex "02" = "02" :=
  ⟨(combine_signature_rotation sigSample).1 (by decide) (by decide),
   (combine_signature_rotation "02").2 (Or.inr (by decide))⟩

/-- Claim C9: the SIP-009/SIP-010 compliance check accepts a contract whenever,
for every required standard function, the contract ABI lists a function with
the same name and the same number of arguments — argument types are not
compared (the inner per-argument comparison's result is discarded), so a
contract whose like-named `transfer` has entirely different argument types is
still accepted. -/
theorem isCompliant_ignores_arg_types :
    (∀ (abi : ClarityAbi) (fns : List ClarityAbiFunction),
       isCompliant abi fns =
         fns.all fun f => abi.functions.any fun g =>
           decide (g.name = f.name ∧ g.args.length = f.args.length))
    ∧ isCompliant mismatchedFtContract FT_FUNCTIONS = true
    ∧ (FT_FUNCTIONS.find? fun f => f.name == "transfer") ≠
        (mismatchedFtContract.functions.find? fun f => f.name == "transfer") := by
  refine ⟨?_, ?_, ?_⟩
  · intro abi fns
    simp [isCompliant, findFunction_eq_any]
  · decide
  · decide

/-- Claim C1 (code-bug demonstration): the combine handler is NOT fail-fast on
every post-deserialization check.  At a concrete request whose signature fails
cryptographic verification it emits the `SignatureNotVerified` error AND then
continues: the signature is spliced into the spending condition and a signed
transaction response is also emitted.  Likewise a signature count different
from one emits `NeedOnlyOneSignature` and then continues to a signed
transaction response. -/
theorem combine_fallthrough_bug :
    combineHandler extTest reqVerifyFail =
      [.err .signatureNotVerified, .signedTx "0xfade"]
    ∧ combineHandler extTest reqTwoSigs =
      [.err .needOnlyOneSignature, .signedTx "0xfade"] :=
  ⟨rfl, rfl⟩

/-- Claim C3: for every hash request whose transaction deserializes, an absent
spending condition, a single-signature condition with an empty or all-zero
sentinel signature, and a multi-signature condition with an empty field list
each yield `TransactionNotSigned`; otherwise the endpoint returns the
transaction's content hash (txid) with a "0x" prefix. -/
theorem hash_signedness_check (ext : Ext) (h : String) (buf : List Nat)
    (tx : StacksTransaction)
    (hbuf : ext.hexToBuffer (normalize0x h) = some buf)
    (htx : ext.deserializeTransaction buf = some tx) :
    (tx.auth.spendingCondition = none →
       hashHandler ext h = some (.error .transactionNotSigned))
    ∧ (∀ sig, tx.auth.spendingCondition = some (.singleSig sig) →
        ((sig.data = "" ∨ sig.data = emptyMessageSignature.data) →
           hashHandler ext h = some (.error .transactionNotSigned))
        ∧ (sig.data ≠ "" → sig.data ≠ emptyMessageSignature.data →
           hashHandler ext h = some (.ok ("0x" ++ ext.txid tx))))
    ∧ (∀ fields, tx.auth.spendingCondition = some (.multiSig fields) →
        (fields = [] → hashHandler ext h = some (.error .transactionNotSigned))
        ∧ (fields ≠ [] → hashHandler ext h = some (.ok ("0x" ++ ext.txid tx)))) := by
  refine ⟨?_, ?_, ?_⟩
  · intro hsc
    simp [hashHandler, hbuf, htx, hsc]
  · intro sig hsc
    constructor
    · intro hd
      simp only [hashHandler, hbuf, htx, hsc]
      rw [if_pos hd]
    · intro hd1 hd2
      simp only [hashHandler, hbuf, htx, hsc]
      rw [if_neg (by simp [hd1, hd2])]
  · intro fields hsc
    constructor
    · intro hf
      simp [hashHandler, hbuf, htx, hsc, hf]
    · intro hf
      simp only [hashHandler, hbuf, htx, hsc]
      rw [if_neg (by simp [List.length_eq_zero, hf])]

/-- Witness for C3 at a concrete input: a single-signature transaction with a
non-empty signature hashes to the prefixed txid. -/
theorem hash_signedness_check_witness :
    hashHandler extTest "ab" =
      some (.ok ("0x" ++ extTest.txid ⟨⟨some (.singleSig ⟨"ab"⟩)⟩⟩)) :=
  ((hash_signedness_check extTest "ab" [] ⟨⟨some (.singleSig ⟨"ab"⟩)⟩⟩ rfl rfl).2.1
      ⟨"ab"⟩ rfl).2 (by decide) (by decide)

/-- Claim C4: for every payloads request that passes the amount, fee,
public-key-presence, recipient and sender checks, a public key list whose
length is not exactly 1 is rejected with `NeedOnePublicKey`, and a single key
whose curve type is not secp256k1 is rejected with `InvalidCurveType`; in both
cases no unsigned transaction is built (the event trace contains no
transaction-construction event). -/
theorem payloads_one_pubkey_check (ext : Ext) (req : PayloadsRequest)
    (options : RosettaOptions) (pks : List RosettaPublicKey)
    (hopt : ext.getOptionsFromOperations req.operations = some options)
    (hamt : jsTruthyStr options.amount = true)
    (hfee : jsTruthyStr options.fee = true)
    (hpks : req.public_keys = some pks)
    (hrec : jsTruthyStr options.token_transfer_recipient_address = true)
    (hsnd : jsTruthyStr options.sender_address = true) :
    (pks.length ≠ 1 →
       payloadsHandler ext req =
         (.error .needOnePublicKey, [.getAccount (options.sender_address.getD "")]))
    ∧ (∀ pk, pks = [pk] → pk.curve_type ≠ "secp256k1" →
       payloadsHandler ext req =
         (.error .invalidCurveType, [.getAccount (options.sender_address.getD "")])) := by
  constructor
  · intro hlen
    rcases pks with _ | ⟨a, _ | ⟨b, t⟩⟩
    · simp [payloadsHandler, hopt, hamt, hfee, hpks, hrec, hsnd]
    · simp at hlen
    · simp [payloadsHandler, hopt, hamt, hfee, hpks, hrec, hsnd]
  · intro pk hpkeq hcurve
    subst hpkeq
    simp [payloadsHandler, hopt, hamt, hfee, hpks, hrec, hsnd, hcurve]

/-- Witness for C4 at a concrete input: a present but empty public key list is
rejected with `NeedOnePublicKey` after only the account lookup. -/
theorem payloads_one_pubkey_check_witness :
    payloadsHandler extTest reqC4 = (.error .needOnePublicKey, [.getAccount "S"]) :=
  (payloads_one_pubkey_check extTest reqC4 optsTest [] rfl rfl rfl rfl rfl rfl).1 (by decide)

/-- Every metadata result is either an error with an empty network trace or a
success after exactly the account lookup and the chain-tip lookup. -/
theorem metadataHandler_shape (ext : Ext) (req : MetadataRequest) :
    (∃ e, metadataHandler ext req = (.error e, [])) ∨
    (∃ resp r, metadataHandler ext req =
        (.ok resp, [.getAccount r, .getCurrentBlock])) := by
  simp only [metadataHandler]
  repeat' split
  all_goals first
    | exact Or.inl ⟨_, rfl⟩
    | exact Or.inr ⟨_, _, rfl⟩

/-- Claim C6: for every metadata request that fails any validation check, the
corresponding error is returned with an empty network trace — neither the
external account service nor the chain-tip lookup is contacted. -/
theorem metadata_validates_before_network (ext : Ext) (req : MetadataRequest)
    (e : RosettaError) (h : (metadataHandler ext req).1 = .error e) :
    (metadataHandler ext req).2 = [] := by
  rcases metadataHandler_shape ext req with ⟨e2, hM⟩ | ⟨resp, r, hM⟩
  · rw [hM]
  · rw [hM] at h
    simp at h

/-- Witness for C6 at a concrete input: an unsupported transaction type makes
no network call. -/
theorem metadata_validates_before_network_witness :
    (metadataHandler extTest reqBadType).2 = [] :=
  metadata_validates_before_network extTest reqBadType .invalidTransactionType (by rfl)

/-- Claim C7: for every metadata request that supplies at least one public key,
the endpoint succeeds only if the address derived from that key equals the
declared sender address, and whenever derivation fails or the derived address
differs from the declared sender the endpoint returns `InvalidPublicKey`. -/
theorem metadata_pubkey_address_check (ext : Ext) (req : MetadataRequest)
    (pk : RosettaPublicKey) (rest : List RosettaPublicKey)
    (hpk : req.public_keys = pk :: rest) :
    (∀ resp, (metadataHandler ext req).1 = .ok resp →
       deriveStxAddress ext pk.hex_bytes req.network ≠ none ∧
       deriveStxAddress ext pk.hex_bytes req.network = req.options.sender_address)
    ∧ (req.options.type = "token_transfer" →
       (∀ s, req.options.sender_address = some s → ext.isValidC32Address s = true) →
       req.options.symbol = some rosettaSymbol →
       req.options.decimals = some rosettaDecimals →
       (∃ r, req.options.token_transfer_recipient_address = some r ∧
          ext.isValidC32Address r = true) →
       (∀ stx, deriveStxAddress ext pk.hex_bytes req.network = some stx →
          req.options.sender_address ≠ some stx) →
       (metadataHandler ext req).1 = .error .invalidPublicKey) := by
  constructor
  · intro resp h
    simp only [metadataHandler, hpk] at h
    rcases hder : deriveStxAddress ext pk.hex_bytes req.network with _ | stx
    · rw [hder] at h
      repeat' split at h <;> try simp_all
    · rw [hder] at h
      refine ⟨by simp, ?_⟩
      by_contra hne
      repeat' split at h <;> try simp_all
  · intro htype hsender hsym hdec hrec hbad
    obtain ⟨r, hr, hrv⟩ := hrec
    unfold metadataHandler
    rw [hpk]
    rcases hs : req.options.sender_address with _ | s
    · rcases hder : deriveStxAddress ext pk.hex_bytes req.network with _ | stx
      · simp_all
      · simp_all
    · have hv := hsender s hs
      rcases hder : deriveStxAddress ext pk.hex_bytes req.network with _ | stx
      · simp_all
      · have hne : ¬ stx = s := fun hh => hbad stx hder (by rw [hs, hh])
        simp_all

/-- Witness for C7 at a concrete input: a metadata request whose public key
derives exactly the declared sender address succeeds, and the derived address
matches. -/
theorem metadata_pubkey_address_check_witness :
    deriveStxAddress extTest "02aa" reqC7.network ≠ none ∧
    deriveStxAddress extTest "02aa" reqC7.network = reqC7.options.sender_address :=
  (metadata_pubkey_address_check extTest reqC7 ⟨"02aa", "secp256k1"⟩ [] rfl).1
    ⟨reqC7.options, 7, some "beef"⟩ (by rfl)

/-- Claim C10: the hash, parse, submit and combine endpoints are insensitive to
a leading "0x" on the input transaction hex: for every transaction hex without
the prefix, each handler's result equals its result on the prefixed string,
because each handler prepends "0x" when absent before any decoding. -/
theorem construction_endpoints_0x_insensitive (ext : Ext) (h : String)
    (hpre : has0xPrefix h = false) :
    (hashHandler ext h = hashHandler ext ("0x" ++ h))
    ∧ (∀ signed, parseHandler ext ⟨h, signed⟩ = parseHandler ext ⟨"0x" ++ h, signed⟩)
    ∧ (submitHandler ext h = submitHandler ext ("0x" ++ h))
    ∧ (∀ sigs, combineHandler ext ⟨h, sigs⟩ = combineHandler ext ⟨"0x" ++ h, sigs⟩) := by
  have e : normalize0x h = normalize0x ("0x" ++ h) := by
    rw [normalize0x_eq h hpre, normalize0x_append]
  refine ⟨?_, fun signed => ?_, ?_, fun sigs => ?_⟩
  · unfold hashHandler
    rw [e]
  · simp only [parseHandler]
    rw [e]
  · unfold submitHandler
    rw [e]
  · simp only [combineHandler]
    rw [e]

/-- Witness for C10 at a concrete input. -/
theorem construction_endpoints_0x_insensitive_witness :
    hashHandler extTest "ab" = hashHandler extTest ("0x" ++ "ab") :=
  (construction_endpoints_0x_insensitive extTest "ab" (by decide)).1

end StacksApi
